import Mathlib

/-!
Verification of the tool-calling conversation orchestration of `app.py`
(persona-grounded conversational agent).

The Python module is shallowly embedded:
* external collaborators (the `json` codec, `requests.post`, and calls to
  module-level globals that are not defined in `app.py` itself) are supplied
  through an `Env` record of functions, so theorems quantify over their
  behaviour and concrete instances evaluate;
* an exception raised by the Python code is an `Except.error`;
* the model client is a function from the current message list to a response
  choice, and the unbounded `while` loop of `Me.chat` is embedded with
  explicit fuel (`LoopResult.fuelOut` marks fuel exhaustion, an artifact of
  the embedding, never a behaviour of the source).
-/

set_option autoImplicit false

namespace CareerConv

/-- Decoded tool-call arguments: the key/value data produced by `json.loads`
on an arguments payload (the catalog's tools take string-valued fields). -/
abbrev Args := List (String × String)

/-- Python exceptions that can escape the embedded fragment. -/
inductive PyErr where
  /-- Exception `json.JSONDecodeError`, raised by `json.loads` on an invalid payload. -/
  | jsonDecodeError
  /-- Exception `TypeError`, raised when keyword arguments do not bind a signature. -/
  | typeError
  /-- Exception `requests.RequestException`, raised by `requests.post`. -/
  | requestError
  /-- Any other exception, from calling an unmodelled module-level global. -/
  | otherError (what : String)
  deriving DecidableEq, Repr

/-- A value a dispatched callable returns: the tool functions return small
string-keyed dicts, and `push` returns Python `None`. -/
inductive ToolResultVal where
  | obj (fields : List (String × String))
  | pynull
  deriving DecidableEq, Repr

/-- Field list serialization of `json.dumps` (default separators). -/
def dumpsFields : List (String × String) → String
  | [] => ""
  | [(k, v)] => "\"" ++ k ++ "\": \"" ++ v ++ "\""
  | (k, v) :: rest => "\"" ++ k ++ "\": \"" ++ v ++ "\", " ++ dumpsFields rest

/-- Serialization `json.dumps` on the result values that reach `handle_tool_call`. -/
def dumps : ToolResultVal → String
  | ToolResultVal.obj fields => "\x7b" ++ dumpsFields fields ++ "\x7d"
  | ToolResultVal.pynull => "null"

/-- The external collaborators of `app.py`, supplied as capabilities. -/
structure Env where
  /-- Decoder `json.loads` restricted to tool-argument payloads: `none` means the
  payload is not valid JSON and `json.loads` raises `JSONDecodeError`. -/
  decode : String → Option Args
  /-- Delivery `requests.post` to the Pushover endpoint, keyed by the message text
  (the token/user fields come from the ambient environment). -/
  post : String → Except PyErr Unit
  /-- Calling a module-level global of `app.py` that is not one of the three
  functions defined in the module (imports, classes, constants). -/
  callOther : String → Args → Except PyErr ToolResultVal

/-- Function `push(message)` (app.py lines 19-29): posts the message to the
notification endpoint; any exception from `requests.post` propagates. -/
def push (env : Env) (message : String) : Except PyErr Unit :=
  env.post message

/-- Function `record_user_details(email, name=..., notes=...)` (app.py lines 32-34). -/
def record_user_details (env : Env) (email : String)
    (name : String := "Name not provided") (notes : String := "not provided") :
    Except PyErr ToolResultVal :=
  match push env ("Recording " ++ name ++ " with email " ++ email ++ " and notes " ++ notes) with
  | Except.ok _ => Except.ok (ToolResultVal.obj [("recorded", "ok")])
  | Except.error e => Except.error e

/-- Function `record_unknown_question(question)` (app.py lines 37-39). -/
def record_unknown_question (env : Env) (question : String) :
    Except PyErr ToolResultVal :=
  match push env ("Recording unknown question: " ++ question) with
  | Except.ok _ => Except.ok (ToolResultVal.obj [("recorded", "ok")])
  | Except.error e => Except.error e

/-- First value bound to a key in a decoded arguments dict. -/
def lookupArg (args : Args) (k : String) : Option String :=
  (args.find? (fun p => p.1 == k)).map Prod.snd

/-- Value bound to a key, or a default (Python default parameter value). -/
def getArg (args : Args) (k : String) (dflt : String) : String :=
  (lookupArg args k).getD dflt

/-- Python keyword application `record_user_details(**args)`: binds `email`
(required) and the optional `name`/`notes`; any other key raises `TypeError`. -/
def call_record_user_details (env : Env) (args : Args) : Except PyErr ToolResultVal :=
  if args.all (fun p => ["email", "name", "notes"].contains p.1) then
    match lookupArg args "email" with
    | some email =>
        record_user_details env email (getArg args "name" "Name not provided")
          (getArg args "notes" "not provided")
    | none => Except.error PyErr.typeError
  else Except.error PyErr.typeError

/-- Python keyword application `record_unknown_question(**args)`. -/
def call_record_unknown_question (env : Env) (args : Args) : Except PyErr ToolResultVal :=
  if args.all (fun p => p.1 == "question") then
    match lookupArg args "question" with
    | some question => record_unknown_question env question
    | none => Except.error PyErr.typeError
  else Except.error PyErr.typeError

/-- Python keyword application `push(**args)`: binds `message` and returns
`None` (serialized as `null`) when the post succeeds. -/
def call_push (env : Env) (args : Args) : Except PyErr ToolResultVal :=
  if args.all (fun p => p.1 == "message") then
    match lookupArg args "message" with
    | some message =>
        match push env message with
        | Except.ok _ => Except.ok ToolResultVal.pynull
        | Except.error e => Except.error e
    | none => Except.error PyErr.typeError
  else Except.error PyErr.typeError

/-- A module-level binding of `app.py`, as seen by `globals().get(...)`. -/
inductive PyGlobal where
  /-- the function `record_user_details` -/
  | fnRecordUserDetails
  /-- the function `record_unknown_question` -/
  | fnRecordUnknownQuestion
  /-- the function `push` -/
  | fnPush
  /-- any other module-level binding (imports, schema dicts, `tools`,
  `DEBUG`, the class `Me`), whose call behaviour is external -/
  | otherGlobal
  deriving DecidableEq, Repr

/-- Lookup `globals().get(tool_name)` over the module-level names of `app.py`
(app.py line 116): the three functions the module defines, the imported
names, and the other module-level constants; absent names give `none`. -/
def globalsGet (name : String) : Option PyGlobal :=
  if name = "record_user_details" then some PyGlobal.fnRecordUserDetails
  else if name = "record_unknown_question" then some PyGlobal.fnRecordUnknownQuestion
  else if name = "push" then some PyGlobal.fnPush
  else if ["os", "json", "logging", "requests", "load_dotenv", "OpenAI",
           "PdfReader", "gr", "DEBUG", "record_user_details_json",
           "record_unknown_question_json", "tools", "Me"].contains name then
    some PyGlobal.otherGlobal
  else none

/-- Invocation `tool(**arguments)` for a value found in `globals()`. -/
def callGlobal (env : Env) (g : PyGlobal) (name : String) (args : Args) :
    Except PyErr ToolResultVal :=
  match g with
  | PyGlobal.fnRecordUserDetails => call_record_user_details env args
  | PyGlobal.fnRecordUnknownQuestion => call_record_unknown_question env args
  | PyGlobal.fnPush => call_push env args
  | PyGlobal.otherGlobal => env.callOther name args

/-- Dispatch `result = tool(**arguments) if tool else \x7b\x7d` with
`tool = globals().get(tool_name)` (app.py lines 116-117). -/
def toolResult (env : Env) (name : String) (args : Args) : Except PyErr ToolResultVal :=
  match globalsGet name with
  | some g => callGlobal env g name args
  | none => Except.ok (ToolResultVal.obj [])

/-- A tool call requested by the model: `tool_call.id`,
`tool_call.function.name`, `tool_call.function.arguments`. -/
structure ToolCallReq where
  id : String
  name : String
  arguments : String
  deriving DecidableEq, Repr

/-- A message dict: role and content, the `tool_calls` list carried by
assistant messages, the `tool_call_id` of tool-role messages, and any
further fields a caller-supplied history dict may carry (e.g. metadata). -/
structure Message where
  role : String
  content : String
  tool_calls : List ToolCallReq := []
  tool_call_id : Option String := none
  extras : List (String × String) := []
  deriving DecidableEq, Repr

/-- An entry of the `messages` list: either a plain dict, or a non-dict
message object (such as the client's `choice.message`), which
`Me.chat`'s history cleanup passes through unchanged. -/
inductive ChatItem where
  | dict (m : Message)
  | obj (m : Message)
  deriving DecidableEq, Repr

/-- One iteration of the `for tool_call in tool_calls` body (app.py lines
111-122): decode the arguments (raising on invalid JSON), resolve the name
in `globals()`, call it if found (else use `\x7b\x7d`), and build the
tool-role result dict. -/
def dispatchOne (env : Env) (tc : ToolCallReq) : Except PyErr Message :=
  match env.decode tc.arguments with
  | none => Except.error PyErr.jsonDecodeError
  | some args =>
    match toolResult env tc.name args with
    | Except.error e => Except.error e
    | Except.ok r =>
        Except.ok { role := "tool", content := dumps r, tool_call_id := some tc.id }

/-- Method `Me.handle_tool_call` (app.py lines 109-123): one result dict per tool
call, in order; an exception in any iteration propagates. -/
def handle_tool_call (env : Env) : List ToolCallReq → Except PyErr (List Message)
  | [] => Except.ok []
  | tc :: rest =>
    match dispatchOne env tc with
    | Except.error e => Except.error e
    | Except.ok m =>
      match handle_tool_call env rest with
      | Except.error e => Except.error e
      | Except.ok ms => Except.ok (m :: ms)

/-- The response choice `response.choices[0]` of the model client. -/
structure Choice where
  finish_reason : String
  message : Message
  deriving DecidableEq, Repr

/-- Outcome of the embedded `while not done` loop: the returned final
content, a propagated exception, or fuel exhaustion (embedding artifact). -/
inductive LoopResult where
  | final (content : String)
  | raised (e : PyErr)
  | fuelOut
  deriving DecidableEq, Repr

/-- The `while not done` loop of `Me.chat` (app.py lines 139-158), with
explicit fuel: call the model on the current messages; on finish reason
`tool_calls` dispatch the tools, append the assistant message object and
the tool results, and iterate; otherwise return the content. -/
def chatLoop (env : Env) (respond : List ChatItem → Choice) :
    Nat → List ChatItem → LoopResult
  | 0, _ => LoopResult.fuelOut
  | fuel + 1, msgs =>
    let choice := respond msgs
    if choice.finish_reason = "tool_calls" then
      match handle_tool_call env choice.message.tool_calls with
      | Except.error e => LoopResult.raised e
      | Except.ok results =>
          chatLoop env respond fuel
            (msgs ++ ChatItem.obj choice.message :: results.map ChatItem.dict)
    else LoopResult.final choice.message.content

/-- The immutable persona data held by `Me` (name fixed in `__init__`,
summary and LinkedIn text loaded once at construction). -/
structure Me where
  name : String
  summary : String
  linkedin : String

/-- Text of `Me.system_prompt` before the summary section (app.py lines
96-104), as a function of the persona name. -/
def promptIntro (n : String) : String :=
  "You are acting as " ++ n ++ ". You are answering questions on " ++ n ++
  "\x27s website, particularly questions related to " ++ n ++
  "\x27s career, background, skills and experience. " ++
  "Your responsibility is to represent " ++ n ++
  " for interactions on the website as faithfully as possible. " ++
  "You are given a summary of " ++ n ++
  "\x27s background and LinkedIn profile which you can use to answer questions. " ++
  "Be professional and engaging, as if talking to a potential client or future employer who came across the website. " ++
  "If you don\x27t know the answer to any question, use your record_unknown_question tool to record the question. " ++
  "If the user is engaging in discussion, try to steer them towards getting in touch via email; " ++
  "ask for their email and record it using your record_user_details tool.\n\n## Summary:\n"

/-- Text of `Me.system_prompt` after the LinkedIn text (app.py line 106). -/
def promptTail (n : String) : String :=
  "\n\nWith this context, please chat with the user, always staying in character as " ++ n ++ "."

/-- Method `Me.system_prompt` (app.py lines 95-107): pure composition of the fixed
persona name with the summary and LinkedIn text. -/
def system_prompt (me : Me) : String :=
  promptIntro me.name ++
    (me.summary ++ ("\n\n## LinkedIn Profile:\n" ++ (me.linkedin ++ promptTail me.name)))

/-- The history cleanup of `Me.chat` (app.py lines 127-133): a dict entry is
replaced by a fresh dict holding only its role and content; a non-dict
entry is appended unchanged. -/
def cleanHistory (history : List ChatItem) : List ChatItem :=
  history.map (fun it =>
    match it with
    | ChatItem.dict m => ChatItem.dict { role := m.role, content := m.content }
    | ChatItem.obj m => ChatItem.obj m)

/-- The initial `messages` list of `Me.chat` (app.py lines 135-137). -/
def buildMessages (me : Me) (message : String) (history : List ChatItem) : List ChatItem :=
  ChatItem.dict { role := "system", content := system_prompt me } ::
    (cleanHistory history ++ [ChatItem.dict { role := "user", content := message }])

/-- Method `Me.chat` (app.py lines 125-158). -/
def chat (me : Me) (env : Env) (respond : List ChatItem → Choice) (fuel : Nat)
    (message : String) (history : List ChatItem) : LoopResult :=
  chatLoop env respond fuel (buildMessages me message history)

/-- A parameter schema (the `parameters` dict of a tool schema): its JSON
type, the declared properties as (name, json type, description), the
required list, and the additionalProperties flag. -/
structure ParamSchema where
  type : String
  properties : List (String × String × String)
  required : List String
  additionalProperties : Bool
  deriving DecidableEq, Repr

/-- A tool schema dict: name, description, parameters. -/
structure ToolFunctionDef where
  name : String
  description : String
  parameters : ParamSchema
  deriving DecidableEq, Repr

/-- An entry of the `tools` list: `\x7b"type": "function", "function": ...\x7d`. -/
structure ToolEntry where
  type : String
  function : ToolFunctionDef
  deriving DecidableEq, Repr

/-- Schema `record_user_details_json` (app.py lines 42-55). -/
def record_user_details_json : ToolFunctionDef :=
  { name := "record_user_details"
  , description := "Use this tool to record that a user is interested in being in touch and provided an email address"
  , parameters :=
    { type := "object"
    , properties :=
        [ ("email", "string", "The user\x27s email address")
        , ("name", "string", "The user\x27s name (optional)")
        , ("notes", "string", "Extra context or message (optional)") ]
    , required := ["email"]
    , additionalProperties := false } }

/-- Schema `record_unknown_question_json` (app.py lines 57-68). -/
def record_unknown_question_json : ToolFunctionDef :=
  { name := "record_unknown_question"
  , description := "Use this tool to record any question that couldn\x27t be answered"
  , parameters :=
    { type := "object"
    , properties := [("question", "string", "The question text")]
    , required := ["question"]
    , additionalProperties := false } }

/-- Catalog `tools` (app.py lines 70-73): the list sent to the model. -/
def tools : List ToolEntry :=
  [ { type := "function", function := record_user_details_json }
  , { type := "function", function := record_unknown_question_json } ]

/-- The names of the tools declared in the catalog. -/
def catalogToolNames : List String := tools.map (fun t => t.function.name)

/-- Whether `pat` occurs as a contiguous run of `l`. -/
def hasSubAux (pat : List Char) : List Char → Bool
  | [] => pat.isEmpty
  | c :: rest => pat.isPrefixOf (c :: rest) || hasSubAux pat rest

/-- Returns `true` when the second string occurs as a substring of the first. -/
def containsSub (s pat : String) : Bool :=
  hasSubAux pat.data s.data

/-- A concrete JSON decoder covering the payloads used in the concrete
scenarios below, agreeing with `json.loads` on each of them (and used only
on them). -/
def decodeJson (s : String) : Option Args :=
  if s = "\x7b\x7d" then some []
  else if s = "\x7b\"email\": \"a@b.com\"\x7d" then some [("email", "a@b.com")]
  else if s = "\x7b\"question\": \"what\"\x7d" then some [("question", "what")]
  else if s = "\x7b\"message\": \"hi\"\x7d" then some [("message", "hi")]
  else none

/-- Environment where every notification post succeeds. -/
def envOk : Env :=
  { decode := decodeJson
  , post := fun _ => Except.ok ()
  , callOther := fun n _ => Except.error (PyErr.otherError n) }

/-- Environment where `requests.post` raises a network error. -/
def envNetFail : Env :=
  { decode := decodeJson
  , post := fun _ => Except.error PyErr.requestError
  , callOther := fun n _ => Except.error (PyErr.otherError n) }

/-- The message sequence observed by the model at the start of round `n` of
the loop (round 0 sees the initial messages); `none` once the loop has
already stopped, either with a final answer or with a raised exception. -/
def roundState (env : Env) (respond : List ChatItem → Choice) :
    Nat → List ChatItem → Option (List ChatItem)
  | 0, msgs => some msgs
  | n + 1, msgs =>
    let choice := respond msgs
    if choice.finish_reason = "tool_calls" then
      match handle_tool_call env choice.message.tool_calls with
      | Except.ok results =>
          roundState env respond n
            (msgs ++ ChatItem.obj choice.message :: results.map ChatItem.dict)
      | Except.error _ => none
    else none

/-- The model behaviour stops requesting tools by round `n`: at round `n` it
answers with a non-tool-calls finish reason, or the loop already stopped
earlier. -/
def stopsAt (env : Env) (respond : List ChatItem → Choice)
    (msgs : List ChatItem) (n : Nat) : Prop :=
  match roundState env respond n msgs with
  | some ms => (respond ms).finish_reason ≠ "tool_calls"
  | none => True

/-- A tool call with arguments that are not valid JSON. -/
def tcBadArgs : ToolCallReq :=
  { id := "call_1", name := "record_user_details", arguments := "not json" }

/-- A tool call naming an unregistered tool, with well-formed arguments. -/
def tcDelete : ToolCallReq :=
  { id := "call_1", name := "delete_everything", arguments := "\x7b\x7d" }

/-- A tool call naming the module-level function `push`, which the catalog
does not declare. -/
def tcPush : ToolCallReq :=
  { id := "call_9", name := "push", arguments := "\x7b\"message\": \"hi\"\x7d" }

/-- A well-formed call of the declared tool `record_unknown_question`. -/
def tcQ : ToolCallReq :=
  { id := "call_q", name := "record_unknown_question"
  , arguments := "\x7b\"question\": \"what\"\x7d" }

/-- The tool-role result message produced for `tcQ` when the post succeeds. -/
def msgQ : Message :=
  { role := "tool", content := "\x7b\"recorded\": \"ok\"\x7d", tool_call_id := some "call_q" }

/-- An assistant choice requesting the single tool call `tcQ`. -/
def toolChoiceQ : Choice :=
  { finish_reason := "tool_calls"
  , message := { role := "assistant", content := "", tool_calls := [tcQ] } }

/-- A model behaviour that keeps requesting `tcQ` until the message list has
grown to length `2 * k`, then answers `done`: it performs exactly `k`
tool-dispatch rounds from an empty initial message list. -/
def respondT (k : Nat) : List ChatItem → Choice :=
  fun msgs =>
    if 2 * k ≤ msgs.length then
      { finish_reason := "stop", message := { role := "assistant", content := "done" } }
    else toolChoiceQ

/-- A model behaviour that always requests the malformed tool call `tcBadArgs`. -/
def respondBad : List ChatItem → Choice :=
  fun _ =>
    { finish_reason := "tool_calls"
    , message := { role := "assistant", content := "", tool_calls := [tcBadArgs] } }

/-- A model behaviour that immediately answers `hello` without tools. -/
def respondStop : List ChatItem → Choice :=
  fun _ =>
    { finish_reason := "stop", message := { role := "assistant", content := "hello" } }

/-- A history dict carrying a field beyond role and content. -/
def metaMsg : Message :=
  { role := "assistant", content := "x", extras := [("metadata", "m")] }

/-- A small concrete persona. -/
def meX : Me := { name := "N", summary := "S", linkedin := "L" }

theorem chatLoop_stop (env : Env) (respond : List ChatItem → Choice)
    (msgs : List ChatItem) (fuel : Nat)
    (h : (respond msgs).finish_reason ≠ "tool_calls") :
    chatLoop env respond (fuel + 1) msgs = LoopResult.final (respond msgs).message.content := by
  simp [chatLoop, h]

theorem chatLoop_tool (env : Env) (respond : List ChatItem → Choice)
    (msgs : List ChatItem) (fuel : Nat) (results : List Message)
    (hf : (respond msgs).finish_reason = "tool_calls")
    (hh : handle_tool_call env (respond msgs).message.tool_calls = Except.ok results) :
    chatLoop env respond (fuel + 1) msgs =
      chatLoop env respond fuel
        (msgs ++ ChatItem.obj (respond msgs).message :: results.map ChatItem.dict) := by
  simp [chatLoop, hf, hh]

theorem chatLoop_raise (env : Env) (respond : List ChatItem → Choice)
    (msgs : List ChatItem) (fuel : Nat) (e : PyErr)
    (hf : (respond msgs).finish_reason = "tool_calls")
    (hh : handle_tool_call env (respond msgs).message.tool_calls = Except.error e) :
    chatLoop env respond (fuel + 1) msgs = LoopResult.raised e := by
  simp [chatLoop, hf, hh]

theorem dispatchOne_ok_fields (env : Env) (tc : ToolCallReq) (m : Message)
    (h : dispatchOne env tc = Except.ok m) :
    m.role = "tool" ∧ m.tool_call_id = some tc.id := by
  unfold dispatchOne at h
  cases hd : env.decode tc.arguments with
  | none => rw [hd] at h; exact absurd h (by simp)
  | some args =>
    rw [hd] at h
    dsimp only at h
    cases hr : toolResult env tc.name args with
    | error e => rw [hr] at h; exact absurd h (by simp)
    | ok r =>
      rw [hr] at h
      cases h
      exact ⟨rfl, rfl⟩

/-- C9: `system_prompt` is deterministic — two calls on the same persona
context yield identical strings — and the rendered instruction embeds the
summary text and the LinkedIn profile text verbatim, in that order. -/
theorem system_prompt_deterministic_verbatim :
    ∀ me : Me, system_prompt me = system_prompt me ∧
      ∃ a b c, system_prompt me = a ++ (me.summary ++ (b ++ (me.linkedin ++ c))) :=
  fun me =>
    ⟨rfl, ⟨promptIntro me.name, "\n\n## LinkedIn Profile:\n", promptTail me.name, rfl⟩⟩

/-- C8: every tool definition in the catalog has a non-empty name, a
non-empty description, and a `required` list that only references declared
parameters — so the validation the spec prescribes finds nothing to reject
in the constructed catalog. -/
theorem tool_catalog_definitions_valid :
    ∀ t ∈ tools, t.function.name ≠ "" ∧ t.function.description ≠ "" ∧
      ∀ r ∈ t.function.parameters.required,
        r ∈ t.function.parameters.properties.map (fun p => p.1) := by
  decide

theorem record_user_details_schema_valid :
    record_user_details_json.name ≠ "" ∧ record_user_details_json.description ≠ "" ∧
      ∀ r ∈ record_user_details_json.parameters.required,
        r ∈ record_user_details_json.parameters.properties.map (fun p => p.1) :=
  tool_catalog_definitions_valid
    { type := "function", function := record_user_details_json } (by decide)

/-- C4 (amended): the `recorded: ok` acknowledgment is returned exactly when
the notification post succeeds; a delivery failure in `push` propagates out
of the tool implementation instead of being absorbed. -/
theorem ack_requires_push_success :
    ∀ (env : Env) (email name notes question : String),
      (push env ("Recording " ++ name ++ " with email " ++ email ++ " and notes " ++ notes) =
          Except.ok () →
        record_user_details env email name notes =
          Except.ok (ToolResultVal.obj [("recorded", "ok")]))
      ∧ (∀ e, push env ("Recording " ++ name ++ " with email " ++ email ++ " and notes " ++ notes) =
          Except.error e →
        record_user_details env email name notes = Except.error e)
      ∧ (push env ("Recording unknown question: " ++ question) = Except.ok () →
        record_unknown_question env question =
          Except.ok (ToolResultVal.obj [("recorded", "ok")]))
      ∧ (∀ e, push env ("Recording unknown question: " ++ question) = Except.error e →
        record_unknown_question env question = Except.error e) := by
  intro env email name notes question
  refine ⟨fun h => ?_, fun e h => ?_, fun h => ?_, fun e h => ?_⟩ <;>
    simp [record_user_details, record_unknown_question, h]

/-- C4 counterexample: with a failing notification endpoint, the tool call
raises a network error instead of returning the acknowledgment. -/
theorem push_failure_aborts_tool_cex :
    record_user_details envNetFail "a@b.com" = Except.error PyErr.requestError ∧
      record_user_details envNetFail "a@b.com" ≠
        Except.ok (ToolResultVal.obj [("recorded", "ok")]) ∧
      record_unknown_question envNetFail "what" = Except.error PyErr.requestError := by
  have h1 : record_user_details envNetFail "a@b.com" = Except.error PyErr.requestError := rfl
  exact ⟨h1, by rw [h1]; exact fun h => Except.noConfusion h, rfl⟩

theorem ack_push_concrete :
    record_user_details envOk "a@b.com" = Except.ok (ToolResultVal.obj [("recorded", "ok")]) :=
  (ack_requires_push_success envOk "a@b.com" "Name not provided" "not provided" "q").1 rfl

/-- C1 (amended): a tool call whose arguments are not valid JSON makes
`handle_tool_call` raise the decode error; the orchestration loop propagates
it and the turn aborts — no tool-role error message is produced. -/
theorem handle_tool_call_decode_failure_propagates :
    ∀ (env : Env) (tc : ToolCallReq) (rest : List ToolCallReq),
      env.decode tc.arguments = none →
      handle_tool_call env (tc :: rest) = Except.error PyErr.jsonDecodeError
      ∧ ∀ (respond : List ChatItem → Choice) (msgs : List ChatItem) (fuel : Nat),
          (respond msgs).finish_reason = "tool_calls" →
          (respond msgs).message.tool_calls = tc :: rest →
          chatLoop env respond (fuel + 1) msgs = LoopResult.raised PyErr.jsonDecodeError := by
  intro env tc rest hdec
  have hh : handle_tool_call env (tc :: rest) = Except.error PyErr.jsonDecodeError := by
    simp [handle_tool_call, dispatchOne, hdec]
  refine ⟨hh, ?_⟩
  intro respond msgs fuel hfin htc
  exact chatLoop_raise env respond msgs fuel _ hfin (htc ▸ hh)

/-- C1 counterexample: a malformed arguments payload is not caught — the
dispatch raises and the loop aborts, contrary to the claimed conversion
into a tool-role error message. -/
theorem decode_failure_not_caught_cex :
    handle_tool_call envOk [tcBadArgs] = Except.error PyErr.jsonDecodeError ∧
      (¬ ∃ results, handle_tool_call envOk [tcBadArgs] = Except.ok results) ∧
      chatLoop envOk respondBad 5 [] = LoopResult.raised PyErr.jsonDecodeError := by
  have h1 : handle_tool_call envOk [tcBadArgs] = Except.error PyErr.jsonDecodeError := rfl
  refine ⟨h1, ?_, rfl⟩
  rintro ⟨results, h⟩
  rw [h1] at h
  exact Except.noConfusion h

theorem decode_failure_concrete :
    chatLoop envOk respondBad 4 [] = LoopResult.raised PyErr.jsonDecodeError :=
  (handle_tool_call_decode_failure_propagates envOk tcBadArgs [] rfl).2 respondBad [] 3 rfl rfl

/-- C2 (amended): a tool call whose name matches no module-level binding
does not raise — the dispatch produces a tool-role message whose content is
the empty JSON object (not an error encoding), and the loop continues with
it appended after the assistant message. -/
theorem unknown_name_yields_empty_object :
    ∀ (env : Env) (tc : ToolCallReq) (rest : List ToolCallReq) (args : Args),
      env.decode tc.arguments = some args →
      globalsGet tc.name = none →
      handle_tool_call env (tc :: rest) =
        (handle_tool_call env rest).map
          (fun ms =>
            ({ role := "tool", content := "\x7b\x7d", tool_call_id := some tc.id } : Message) :: ms)
      ∧ ∀ (respond : List ChatItem → Choice) (msgs : List ChatItem) (fuel : Nat),
          (respond msgs).finish_reason = "tool_calls" →
          (respond msgs).message.tool_calls = [tc] →
          chatLoop env respond (fuel + 1) msgs =
            chatLoop env respond fuel
              (msgs ++ [ChatItem.obj (respond msgs).message,
                ChatItem.dict { role := "tool", content := "\x7b\x7d", tool_call_id := some tc.id }]) := by
  intro env tc rest args hdec hglob
  have hdump : dumps (ToolResultVal.obj []) = "\x7b\x7d" := rfl
  have hone : dispatchOne env tc =
      Except.ok { role := "tool", content := "\x7b\x7d", tool_call_id := some tc.id } := by
    simp [dispatchOne, hdec, toolResult, hglob, hdump]
  constructor
  · cases hrest : handle_tool_call env rest <;>
      simp [handle_tool_call, hone, hrest, Except.map]
  · intro respond msgs fuel hfin htc
    have hh : handle_tool_call env [tc] =
        Except.ok [{ role := "tool", content := "\x7b\x7d", tool_call_id := some tc.id }] := by
      simp [handle_tool_call, hone]
    have := chatLoop_tool env respond msgs fuel _ hfin (htc ▸ hh)
    simpa using this

/-- C2 counterexample: the tool-role message produced for the unregistered
tool name `delete_everything` carries the content `\x7b\x7d` — the same
empty object a successful no-op would produce, with no unknown-tool error
encoded in it (it mentions neither `error`, `unknown`, nor the tool name). -/
theorem delete_everything_no_error_cex :
    handle_tool_call envOk [tcDelete] =
      Except.ok [{ role := "tool", content := "\x7b\x7d", tool_call_id := some "call_1" }] ∧
      containsSub "\x7b\x7d" "error" = false ∧
      containsSub "\x7b\x7d" "unknown" = false ∧
      containsSub "\x7b\x7d" "delete_everything" = false := by
  exact ⟨rfl, rfl, rfl, rfl⟩

theorem unknown_name_concrete :
    handle_tool_call envOk [tcDelete, tcQ] =
      Except.ok
        [{ role := "tool", content := "\x7b\x7d", tool_call_id := some "call_1" }, msgQ] := by
  have h := (unknown_name_yields_empty_object envOk tcDelete [tcQ] [] rfl rfl).1
  rw [h]
  rfl

/-- C3 (amended): the dispatch resolves tool names in the module globals,
not in the catalog: a name bound to no module-level value is not called
(the result is the empty object), but the module-level function `push` —
which the catalog does not declare — is resolved and invoked with the
model-supplied arguments. -/
theorem dispatch_resolves_in_module_globals :
    (∀ (env : Env) (name : String) (args : Args),
        globalsGet name = none →
        toolResult env name args = Except.ok (ToolResultVal.obj []))
    ∧ globalsGet "push" = some PyGlobal.fnPush
    ∧ "push" ∉ catalogToolNames
    ∧ (∀ (env : Env) (m : String),
        push env m = Except.ok () →
        toolResult env "push" [("message", m)] = Except.ok ToolResultVal.pynull) := by
  refine ⟨?_, rfl, by decide, ?_⟩
  · intro env name args h
    simp [toolResult, h]
  · intro env m h
    simp [toolResult, globalsGet, callGlobal, call_push, lookupArg, h]

/-- C3 counterexample: the out-of-catalog module function `push` is invoked
by the dispatch — with a failing endpoint its network error propagates, and
with a working endpoint its Python `None` return is serialized as `null`
(not the `\x7b\x7d` an uninvoked name produces). -/
theorem push_invoked_outside_catalog_cex :
    "push" ∉ catalogToolNames ∧
      handle_tool_call envNetFail [tcPush] = Except.error PyErr.requestError ∧
      handle_tool_call envOk [tcPush] =
        Except.ok [{ role := "tool", content := "null", tool_call_id := some "call_9" }] := by
  exact ⟨by decide, rfl, rfl⟩

theorem dispatch_globals_concrete :
    toolResult envOk "delete_everything" [] = Except.ok (ToolResultVal.obj []) ∧
      toolResult envOk "push" [("message", "hi")] = Except.ok ToolResultVal.pynull :=
  ⟨dispatch_resolves_in_module_globals.1 envOk "delete_everything" [] rfl,
   dispatch_resolves_in_module_globals.2.2.2 envOk "hi" rfl⟩

/-- C5: for an assistant response with N tool calls, all with registered
names and arguments on which dispatch succeeds, `handle_tool_call` produces
exactly N tool-role messages, the i-th carrying the i-th request's id, and
the loop appends the assistant message followed by exactly those N messages
in order. -/
theorem one_tool_message_per_call :
    ∀ (env : Env) (tcs : List ToolCallReq),
      (∀ tc ∈ tcs, tc.name = "record_user_details" ∨ tc.name = "record_unknown_question") →
      (∀ tc ∈ tcs, ∃ m, dispatchOne env tc = Except.ok m) →
      ∃ results, handle_tool_call env tcs = Except.ok results ∧
        results.length = tcs.length ∧
        (∀ (i : Nat) (h1 : i < results.length) (h2 : i < tcs.length),
          (results.get ⟨i, h1⟩).role = "tool" ∧
          (results.get ⟨i, h1⟩).tool_call_id = some (tcs.get ⟨i, h2⟩).id) ∧
        (∀ (respond : List ChatItem → Choice) (msgs : List ChatItem) (fuel : Nat),
          (respond msgs).finish_reason = "tool_calls" →
          (respond msgs).message.tool_calls = tcs →
          chatLoop env respond (fuel + 1) msgs =
            chatLoop env respond fuel
              (msgs ++ ChatItem.obj (respond msgs).message :: results.map ChatItem.dict)) := by
  intro env tcs
  induction tcs with
  | nil =>
    intro _ _
    refine ⟨[], rfl, rfl, ?_, ?_⟩
    · intro i h1 _
      exact absurd h1 (by simp)
    · intro respond msgs fuel hfin htc
      exact chatLoop_tool env respond msgs fuel [] hfin (htc ▸ rfl)
  | cons tc rest ih =>
    intro hreg hok
    obtain ⟨m, hm⟩ := hok tc (List.mem_cons_self tc rest)
    obtain ⟨ms, hms, hlen, hidx, _⟩ :=
      ih (fun t ht => hreg t (List.mem_cons_of_mem tc ht))
        (fun t ht => hok t (List.mem_cons_of_mem tc ht))
    have hall : handle_tool_call env (tc :: rest) = Except.ok (m :: ms) := by
      simp [handle_tool_call, hm, hms]
    refine ⟨m :: ms, hall, by simp [hlen], ?_, ?_⟩
    · intro i h1 h2
      match i with
      | 0 => exact dispatchOne_ok_fields env tc m hm
      | j + 1 =>
        exact hidx j (Nat.lt_of_succ_lt_succ h1) (Nat.lt_of_succ_lt_succ h2)
    · intro respond msgs fuel hfin htc
      exact chatLoop_tool env respond msgs fuel (m :: ms) hfin (htc ▸ hall)

theorem two_calls_two_messages :
    ∃ results,
      handle_tool_call envOk
        [{ id := "call_1", name := "record_user_details"
         , arguments := "\x7b\"email\": \"a@b.com\"\x7d" }, tcQ] = Except.ok results ∧
      results.length = 2 := by
  obtain ⟨results, h1, h2, _, _⟩ :=
    one_tool_message_per_call envOk
      [{ id := "call_1", name := "record_user_details"
       , arguments := "\x7b\"email\": \"a@b.com\"\x7d" }, tcQ]
      (by decide)
      (by
        intro tc htc
        simp only [List.mem_cons, List.mem_singleton, List.not_mem_nil, or_false] at htc
        rcases htc with h | h <;> subst h <;> exact ⟨_, rfl⟩)
  exact ⟨results, h1, by rw [h2]; rfl⟩

/-- C10: the history cleanup keeps the length, projects every dict entry to
exactly its role and content (dropping tool_calls, tool_call_id, and every
other field), and passes non-dict entries through unchanged. -/
theorem clean_history_projects_role_content :
    ∀ history : List ChatItem,
      (cleanHistory history).length = history.length
      ∧ (∀ (i : Nat) (m : Message),
          history.get? i = some (ChatItem.dict m) →
          (cleanHistory history).get? i =
            some (ChatItem.dict { role := m.role, content := m.content }))
      ∧ (∀ (i : Nat) (m : Message),
          history.get? i = some (ChatItem.obj m) →
          (cleanHistory history).get? i = some (ChatItem.obj m)) := by
  intro history
  refine ⟨by simp [cleanHistory], ?_, ?_⟩ <;>
    · intro i m h
      simp only [List.get?_eq_getElem?] at h ⊢
      simp [cleanHistory, List.getElem?_map, h]

theorem clean_history_concrete :
    (cleanHistory [ChatItem.dict metaMsg]).get? 0 =
      some (ChatItem.dict { role := "assistant", content := "x" }) :=
  (clean_history_projects_role_content [ChatItem.dict metaMsg]).2.1 0 metaMsg rfl

/-- C7 (amended): the first-round message sequence is the system instruction,
then the prior history with each dict entry reduced to its role and content,
then the new user message; when the first response's finish reason is not
`tool_calls`, `chat` returns that response's content with no tool dispatch. -/
theorem first_round_messages_cleaned :
    ∀ (me : Me) (env : Env) (respond : List ChatItem → Choice) (message : String)
      (history : List ChatItem) (fuel : Nat),
      buildMessages me message history =
        ChatItem.dict { role := "system", content := system_prompt me } ::
          (cleanHistory history ++ [ChatItem.dict { role := "user", content := message }])
      ∧ ((respond (buildMessages me message history)).finish_reason ≠ "tool_calls" →
          chat me env respond (fuel + 1) message history =
            LoopResult.final (respond (buildMessages me message history)).message.content) := by
  intro me env respond message history fuel
  exact ⟨rfl, fun h => chatLoop_stop env respond (buildMessages me message history) fuel h⟩

/-- C7 counterexample: a history dict carrying a metadata field is not sent
verbatim — the copy sent to the model differs from the supplied entry. -/
theorem history_not_sent_verbatim_cex :
    buildMessages meX "hi" [ChatItem.dict metaMsg] ≠
      ChatItem.dict { role := "system", content := system_prompt meX } ::
        ([ChatItem.dict metaMsg] ++
          [ChatItem.dict { role := "user", content := "hi" }]) := by
  intro h
  have h1 := congrArg (fun l => l.get? 1) h
  simp [buildMessages, cleanHistory, metaMsg] at h1

theorem first_round_concrete :
    chat meX envOk respondStop 1 "hi" [] = LoopResult.final "hello" :=
  (first_round_messages_cleaned meX envOk respondStop "hi" [] 0).2 (by decide)

theorem respondT_fuel_exact :
    ∀ (k n : Nat) (msgs : List ChatItem), msgs.length + 2 * n = 2 * k →
      chatLoop envOk (respondT k) n msgs = LoopResult.fuelOut ∧
      chatLoop envOk (respondT k) (n + 1) msgs = LoopResult.final "done" := by
  intro k n
  induction n with
  | zero =>
    intro msgs hlen
    have hge : 2 * k ≤ msgs.length := by omega
    have hresp : respondT k msgs =
        { finish_reason := "stop", message := { role := "assistant", content := "done" } } := by
      unfold respondT
      rw [if_pos hge]
    refine ⟨rfl, ?_⟩
    rw [chatLoop_stop envOk (respondT k) msgs 0 (by rw [hresp]; decide), hresp]
  | succ n ih =>
    intro msgs hlen
    have hlt : ¬ 2 * k ≤ msgs.length := by omega
    have hresp : respondT k msgs = toolChoiceQ := by
      unfold respondT
      rw [if_neg hlt]
    have hf : (respondT k msgs).finish_reason = "tool_calls" := by rw [hresp]; rfl
    have hq : handle_tool_call envOk (respondT k msgs).message.tool_calls =
        Except.ok [msgQ] := by
      rw [hresp]; rfl
    have hstep : ∀ f, chatLoop envOk (respondT k) (f + 1) msgs =
        chatLoop envOk (respondT k) f
          (msgs ++ ChatItem.obj (respondT k msgs).message :: [ChatItem.dict msgQ]) :=
      fun f => chatLoop_tool envOk (respondT k) msgs f [msgQ] hf hq
    have hlen2 :
        (msgs ++ ChatItem.obj (respondT k msgs).message :: [ChatItem.dict msgQ]).length + 2 * n =
          2 * k := by
      simp only [List.length_append, List.length_cons, List.length_nil]
      omega
    obtain ⟨ha, hb⟩ := ih _ hlen2
    exact ⟨by rw [hstep n]; exact ha, by rw [hstep (n + 1)]; exact hb⟩

/-- C6: the loop has no maximum round count — for every bound `k` there is a
model behaviour that is still running after `k` rounds of fuel and finishes
one round later — and it terminates exactly when the model stops requesting
tools: every behaviour whose response at some round has a finish reason
other than `tool_calls` makes the loop stop within that many rounds. -/
theorem loop_unbounded_terminates_when_model_stops :
    (∀ (env : Env) (respond : List ChatItem → Choice) (msgs : List ChatItem) (n : Nat),
        stopsAt env respond msgs n →
        chatLoop env respond (n + 1) msgs ≠ LoopResult.fuelOut)
    ∧ (∀ k : Nat, ∃ (env : Env) (respond : List ChatItem → Choice) (content : String),
        chatLoop env respond k [] = LoopResult.fuelOut ∧
        chatLoop env respond (k + 1) [] = LoopResult.final content) := by
  constructor
  · intro env respond msgs n
    induction n generalizing msgs with
    | zero =>
      intro h
      simp only [stopsAt, roundState] at h
      rw [chatLoop_stop env respond msgs 0 h]
      simp
    | succ n ih =>
      intro h
      simp only [stopsAt, roundState] at h
      by_cases hf : (respond msgs).finish_reason = "tool_calls"
      · rw [if_pos hf] at h
        cases hh : handle_tool_call env (respond msgs).message.tool_calls with
        | error e =>
          rw [chatLoop_raise env respond msgs (n + 1) e hf hh]
          simp
        | ok results =>
          rw [hh] at h
          rw [chatLoop_tool env respond msgs (n + 1) results hf hh]
          exact ih _ h
      · rw [if_neg hf] at h
        rw [chatLoop_stop env respond msgs (n + 1) hf]
        simp
  · intro k
    exact ⟨envOk, respondT k, "done", respondT_fuel_exact k k [] (by simp)⟩

theorem loop_terminates_concrete :
    chatLoop envOk (respondT 0) 1 [] ≠ LoopResult.fuelOut :=
  loop_unbounded_terminates_when_model_stops.1 envOk (respondT 0) [] 0
    (by simp only [stopsAt, roundState]; decide)

end CareerConv
